import Mathlib

/-!
Verification of the resilient brokerage API client of the trader-US
repository: the cross-process priority-aware rate limiter
(`src/utils/rate_limiter.py`), the retryable-status classifier
(`src/utils/http_retry.py`), and the multi-credential session pool with
its request/retry/cooldown state machine (`src/brokers/kis_broker.py`).

Times and token balances are modelled over `ℚ`: the Python code computes
with floats, but every property at stake is about the algorithms
(thresholds, caps, debits, modular rotation), not about rounding.
-/

namespace TraderUS

/-! ## Rate limiter (`src/utils/rate_limiter.py`) -/

/-- The persisted bucket state, the JSON object
`{"tokens": ..., "last_update": ...}` stored in the state file. -/
structure State where
  tokens : ℚ
  last_update : ℚ
  deriving Repr, DecidableEq

/-- Configuration of `RateLimiter.__init__`: burst capacity, refill rate
(tokens per second) and the slice reserved for HIGH-priority callers. -/
structure RateLimiter where
  max_tokens : ℚ
  refill_rate : ℚ
  trading_reserve : ℚ
  deriving Repr, DecidableEq

/-- The refill step of `RateLimiter.wait` (step 1 in the source): credit
`elapsed * refill_rate` tokens capped at `max_tokens` and move
`last_update` to `now`. -/
def refill (L : RateLimiter) (s : State) (now : ℚ) : State :=
  { tokens := min L.max_tokens (s.tokens + (now - s.last_update) * L.refill_rate)
    last_update := now }

/-- The availability threshold of `RateLimiter.wait` (step 2 in the
source): `1.0` for priority `"HIGH"`, `1.0 + trading_reserve` for any
other priority string. -/
def threshold (L : RateLimiter) (priority : String) : ℚ :=
  if priority = "HIGH" then 1 else 1 + L.trading_reserve

/-- One iteration of the lock-held critical section of
`RateLimiter.wait`: refill, then, if the post-refill balance meets the
caller's threshold, debit `1.0` token and persist, returning success;
otherwise leave the refilled state and report failure (the Python loop
then sleeps and retries until its timeout). -/
def waitStep (L : RateLimiter) (priority : String) (now : ℚ) (s : State) :
    Bool × State :=
  if threshold L priority ≤ (refill L s now).tokens then
    (true, { refill L s now with tokens := (refill L s now).tokens - 1 })
  else
    (false, refill L s now)

theorem waitStep_pos {L : RateLimiter} {p : String} {now : ℚ} {s : State}
    (h : threshold L p ≤ (refill L s now).tokens) :
    waitStep L p now s = (true, ⟨(refill L s now).tokens - 1, now⟩) := by
  simp only [waitStep, if_pos h]
  rfl

theorem waitStep_neg {L : RateLimiter} {p : String} {now : ℚ} {s : State}
    (h : ¬ threshold L p ≤ (refill L s now).tokens) :
    waitStep L p now s = (false, refill L s now) := by
  simp only [waitStep, if_neg h]

/-- **C1** Priority reservation: after refill, a HIGH acquisition succeeds
iff the balance is at least `1.0`; an acquisition with any other priority
succeeds iff the balance is at least `1.0 + trading_reserve`; a
successful acquisition debits exactly `1.0`; and concretely, with
`trading_reserve = 3` and post-refill balance `2.5`, LOW is denied while
HIGH succeeds. -/
theorem C1_priority_reservation (L : RateLimiter) (s : State) (p : String)
    (now : ℚ) (hp : p ≠ "HIGH") :
    ((waitStep L "HIGH" now s).1 = true ↔ 1 ≤ (refill L s now).tokens) ∧
    ((waitStep L p now s).1 = true ↔
      1 + L.trading_reserve ≤ (refill L s now).tokens) ∧
    (∀ q : String, (waitStep L q now s).1 = true →
      (waitStep L q now s).2.tokens = (refill L s now).tokens - 1) ∧
    ((waitStep ⟨10, L.refill_rate, 3⟩ "LOW" now ⟨5/2, now⟩).1 = false ∧
     (waitStep ⟨10, L.refill_rate, 3⟩ "HIGH" now ⟨5/2, now⟩).1 = true) := by
  refine ⟨?_, ?_, ?_, ?_, ?_⟩
  · by_cases h : 1 ≤ (refill L s now).tokens <;> simp [waitStep, threshold, h]
  · by_cases h : 1 + L.trading_reserve ≤ (refill L s now).tokens <;>
      simp [waitStep, threshold, hp, h]
  · intro q
    by_cases h : threshold L q ≤ (refill L s now).tokens <;> simp [waitStep, h]
  · have h25 : (refill ⟨10, L.refill_rate, 3⟩ ⟨5/2, now⟩ now).tokens = 5/2 := by
      simp [refill]
      norm_num
    simp [waitStep, threshold, h25]
    norm_num
  · have h25 : (refill ⟨10, L.refill_rate, 3⟩ ⟨5/2, now⟩ now).tokens = 5/2 := by
      simp [refill]
      norm_num
    simp [waitStep, threshold, h25]
    norm_num

/-- Witness for C1 at a concrete input. -/
theorem C1_priority_reservation_witness :
    ("LOW" : String) ≠ "HIGH" ∧
    ((waitStep ⟨10, 2, 3⟩ "LOW" 0 ⟨5/2, 0⟩).1 = false ∧
     (waitStep ⟨10, 2, 3⟩ "HIGH" 0 ⟨5/2, 0⟩).1 = true) :=
  ⟨by decide,
   (C1_priority_reservation ⟨10, 2, 3⟩ ⟨5/2, 0⟩ "LOW" 0 (by decide)).2.2.2⟩

/-- A sequence of acquisition attempts against one shared state file:
each list entry is one lock-held critical section of some process's
`RateLimiter.wait`, given as `(priority, wall-clock time)`. Returns the
final persisted state and the number of successful debits. -/
def runAcquisitions (L : RateLimiter) : State → List (String × ℚ) → State × ℕ
  | s, [] => (s, 0)
  | s, (p, t) :: rest =>
    let r := waitStep L p t s
    ((runAcquisitions L r.2 rest).1,
     (runAcquisitions L r.2 rest).2 + if r.1 then 1 else 0)

/-- The wall-clock instants of the acquisition attempts are
non-decreasing, starting no earlier than the given time. -/
def Chronological : ℚ → List (String × ℚ) → Prop
  | _, [] => True
  | t, (_, t1) :: rest => t ≤ t1 ∧ Chronological t1 rest

theorem threshold_ge_one (L : RateLimiter) (p : String)
    (hres : 0 ≤ L.trading_reserve) : 1 ≤ threshold L p := by
  unfold threshold
  split
  · exact le_refl 1
  · linarith

theorem waitStep_inv (L : RateLimiter) (p : String) (now : ℚ) (s : State)
    (hmax : 0 ≤ L.max_tokens) (hrate : 0 ≤ L.refill_rate)
    (hres : 0 ≤ L.trading_reserve) (h0 : 0 ≤ s.tokens)
    (hlu : s.last_update ≤ now) :
    0 ≤ (waitStep L p now s).2.tokens ∧
    (waitStep L p now s).2.tokens ≤ L.max_tokens ∧
    (waitStep L p now s).2.last_update = now ∧
    (if (waitStep L p now s).1 then (1 : ℚ) else 0) + (waitStep L p now s).2.tokens
      ≤ s.tokens + (now - s.last_update) * L.refill_rate := by
  have hfill0 : 0 ≤ s.tokens + (now - s.last_update) * L.refill_rate := by
    have : 0 ≤ (now - s.last_update) * L.refill_rate :=
      mul_nonneg (by linarith) hrate
    linarith
  have hth := threshold_ge_one L p hres
  have hmin : (refill L s now).tokens ≤ L.max_tokens := min_le_left _ _
  have hmin2 : (refill L s now).tokens
      ≤ s.tokens + (now - s.last_update) * L.refill_rate := min_le_right _ _
  have hge : 0 ≤ (refill L s now).tokens := le_min hmax hfill0
  by_cases h : threshold L p ≤ (refill L s now).tokens
  · rw [waitStep_pos h]
    refine ⟨by simp; linarith, by simp; linarith, rfl, by simp; linarith⟩
  · rw [waitStep_neg h]
    exact ⟨hge, hmin, rfl, by simpa using hmin2⟩

theorem runAcquisitions_inv (L : RateLimiter)
    (hmax : 0 ≤ L.max_tokens) (hrate : 0 ≤ L.refill_rate)
    (hres : 0 ≤ L.trading_reserve) :
    ∀ (ts : List (String × ℚ)) (s : State), 0 ≤ s.tokens →
      Chronological s.last_update ts →
      0 ≤ (runAcquisitions L s ts).1.tokens ∧
      s.last_update ≤ (runAcquisitions L s ts).1.last_update ∧
      ((runAcquisitions L s ts).2 : ℚ) + (runAcquisitions L s ts).1.tokens
        ≤ s.tokens +
          ((runAcquisitions L s ts).1.last_update - s.last_update) * L.refill_rate := by
  intro ts
  induction ts with
  | nil =>
    intro s h0 _
    refine ⟨h0, le_refl _, ?_⟩
    simp [runAcquisitions]
  | cons head rest ih =>
    intro s h0 hchron
    obtain ⟨p, t⟩ := head
    obtain ⟨hle, hchron'⟩ := hchron
    obtain ⟨hs0, _, hlu, hsum⟩ := waitStep_inv L p t s hmax hrate hres h0 hle
    have hchron2 : Chronological (waitStep L p t s).2.last_update rest := by
      rw [hlu]; exact hchron'
    obtain ⟨ih0, ihlu, ihsum⟩ := ih (waitStep L p t s).2 hs0 hchron2
    refine ⟨ih0, ?_, ?_⟩
    · simp only [runAcquisitions]
      rw [hlu] at ihlu
      exact le_trans hle ihlu
    · simp only [runAcquisitions]
      rw [hlu] at ihsum
      have hring : (t - s.last_update) * L.refill_rate +
          ((runAcquisitions L (waitStep L p t s).2 rest).1.last_update - t) *
            L.refill_rate
          = ((runAcquisitions L (waitStep L p t s).2 rest).1.last_update -
              s.last_update) * L.refill_rate := by ring
      cases hb : (waitStep L p t s).1 <;> simp [hb] at hsum ⊢ <;> linarith

/-- **C3** Rate limiter conservation: each lock-held `wait` critical
section preserves `0 ≤ tokens ≤ max_tokens` and never moves
`last_update` backwards (refill is capped at `max_tokens`, and exactly
`1.0` is debited only when the post-refill balance meets the caller's
threshold, itself at least `1.0`); consequently, over any chronological
sequence of acquisitions against one state file, the total number of
debits never exceeds the initial balance plus the elapsed-time refill. -/
theorem C3_conservation (L : RateLimiter) (s : State)
    (hmax : 0 ≤ L.max_tokens) (hrate : 0 ≤ L.refill_rate)
    (hres : 0 ≤ L.trading_reserve) (h0 : 0 ≤ s.tokens) :
    (∀ (p : String) (now : ℚ), s.last_update ≤ now →
      0 ≤ (waitStep L p now s).2.tokens ∧
      (waitStep L p now s).2.tokens ≤ L.max_tokens ∧
      s.last_update ≤ (waitStep L p now s).2.last_update) ∧
    (∀ ts : List (String × ℚ), Chronological s.last_update ts →
      ((runAcquisitions L s ts).2 : ℚ)
        ≤ s.tokens +
          ((runAcquisitions L s ts).1.last_update - s.last_update) * L.refill_rate) := by
  constructor
  · intro p now hle
    obtain ⟨a, b, c, _⟩ := waitStep_inv L p now s hmax hrate hres h0 hle
    exact ⟨a, b, by rw [c]; exact hle⟩
  · intro ts hchron
    obtain ⟨h1, _, h3⟩ := runAcquisitions_inv L hmax hrate hres ts s h0 hchron
    linarith

/-- Witness for C3 at a concrete input: capacity 10, rate 2, reserve 3,
starting full at time 0, with two HIGH acquisitions at times 1 and 2. -/
theorem C3_conservation_witness :
    (0 : ℚ) ≤ 10 ∧ (0 : ℚ) ≤ 2 ∧ (0 : ℚ) ≤ 3 ∧ (0 : ℚ) ≤ 10 ∧
    Chronological (0 : ℚ) [("HIGH", 1), ("HIGH", 2)] ∧
    ((runAcquisitions ⟨10, 2, 3⟩ ⟨10, 0⟩ [("HIGH", 1), ("HIGH", 2)]).2 : ℚ)
      ≤ 10 +
        ((runAcquisitions ⟨10, 2, 3⟩ ⟨10, 0⟩
            [("HIGH", 1), ("HIGH", 2)]).1.last_update - 0) * 2 := by
  refine ⟨by norm_num, by norm_num, by norm_num, by norm_num, ?_, ?_⟩
  · exact ⟨by norm_num, by norm_num, trivial⟩
  · exact (C3_conservation ⟨10, 2, 3⟩ ⟨10, 0⟩ (by norm_num) (by norm_num)
      (by norm_num) (by norm_num)).2 [("HIGH", 1), ("HIGH", 2)]
      ⟨by norm_num, by norm_num, trivial⟩

/-! ## Key session token lifecycle (`KISKeySession`, src/brokers/kis_broker.py) -/

/-- In-memory token state of a `KISKeySession`: `_token` (Python `None`
or a string; the empty string is falsy) and `_token_expire`. -/
structure TokenMem where
  token : Option String
  expire : Option ℚ
  deriving Repr, DecidableEq

/-- A key session's token state together with the contents of its
per-credential on-disk cache file (`None` when the file is absent or
unreadable; `_save_token_cache` always writes both fields). -/
structure SessionTok where
  mem : TokenMem
  cacheFile : Option (String × ℚ)
  deriving Repr, DecidableEq

/-- Python truthiness of `self._token` (`None` and `""` are falsy). -/
def tokenTruthy : Option String → Bool
  | none => false
  | some t => t != ""

/-- `KISKeySession._load_token_cache`: no-op when the cache file is
absent, otherwise copy the persisted token and expiry into memory. -/
def load_token_cache (s : SessionTok) : SessionTok :=
  match s.cacheFile with
  | none => s
  | some (t, e) => { s with mem := { token := some t, expire := some e } }

/-- `KISKeySession._save_token_cache`: set the in-memory token and
expiry and persist both to the cache file. -/
def save_token_cache (_s : SessionTok) (t : String) (e : ℚ) : SessionTok :=
  { mem := { token := some t, expire := some e }, cacheFile := some (t, e) }

/-- The 5-minute safety margin (`timedelta(minutes=5)`) in seconds. -/
def tokenMargin : ℚ := 5 * 60

/-- The validity test of `ensure_token`: `self._token and
self._token_expire` are truthy and `self._token_expire > now +
timedelta(minutes=5)`. -/
def tokenValid (m : TokenMem) (now : ℚ) : Bool :=
  tokenTruthy m.token &&
    (match m.expire with
     | some e => decide (now + tokenMargin < e)
     | none => false)

/-- Result of one `ensure_token` call: the returned token value, the
session state afterwards, and how many network issuance calls ran. -/
structure EnsureResult where
  token : String
  state : SessionTok
  issuedCalls : ℕ
  deriving Repr, DecidableEq

/-- `KISKeySession.ensure_token`: load the disk cache when no in-memory
token is set; reuse a valid token; otherwise issue once (`issue_token`,
modelled by its outcome `freshTok` with lifetime `expSec`, giving
`expires_at = now + expSec`) and persist via `_save_token_cache`. -/
def ensure_token (s : SessionTok) (now : ℚ) (freshTok : String) (expSec : ℚ) :
    EnsureResult :=
  let s1 := if tokenTruthy s.mem.token then s else load_token_cache s
  if tokenValid s1.mem now then
    { token := s1.mem.token.getD "", state := s1, issuedCalls := 0 }
  else
    { token := freshTok,
      state := save_token_cache s1 freshTok (now + expSec),
      issuedCalls := 1 }

/-- **C5** Token reuse: a cached token (in memory, or loaded from the
per-credential cache file when memory is empty) whose `expires_at` lies
more than the 5-minute margin after `now` is returned with zero
issuance calls; when the post-load token fails the validity test
(expiry at or before `now + margin`, or nothing cached), exactly one
issuance call runs and the new `{value, expires_at}` is persisted to
the cache file. -/
theorem C5_token_reuse (s : SessionTok) (now : ℚ) (freshTok : String)
    (expSec : ℚ) :
    (∀ t e, s.mem.token = some t → t ≠ "" → s.mem.expire = some e →
      now + tokenMargin < e →
      ensure_token s now freshTok expSec = ⟨t, s, 0⟩) ∧
    (∀ t e, s.mem.token = none → s.cacheFile = some (t, e) → t ≠ "" →
      now + tokenMargin < e →
      ensure_token s now freshTok expSec = ⟨t, load_token_cache s, 0⟩) ∧
    (tokenValid (if tokenTruthy s.mem.token then s else load_token_cache s).mem
        now = false →
      ensure_token s now freshTok expSec =
        ⟨freshTok,
         save_token_cache
           (if tokenTruthy s.mem.token then s else load_token_cache s)
           freshTok (now + expSec), 1⟩) := by
  refine ⟨?_, ?_, ?_⟩
  · intro t e htok hne hexp hlt
    have htr : tokenTruthy s.mem.token = true := by
      rw [htok]; simpa [tokenTruthy] using hne
    have hval : tokenValid s.mem now = true := by
      unfold tokenValid
      rw [hexp, htr]
      simpa using hlt
    unfold ensure_token
    rw [if_pos htr, if_pos hval, htok]
    rfl
  · intro t e htok hcache hne hlt
    have htr : tokenTruthy s.mem.token = false := by
      rw [htok]; rfl
    have hload : load_token_cache s =
        { s with mem := { token := some t, expire := some e } } := by
      unfold load_token_cache
      rw [hcache]
    have hval : tokenValid (load_token_cache s).mem now = true := by
      rw [hload]
      unfold tokenValid
      simpa [tokenTruthy, hne] using hlt
    unfold ensure_token
    rw [htr]
    simp only [Bool.false_eq_true, if_false]
    rw [if_pos hval, hload]
    rfl
  · intro hinvalid
    unfold ensure_token
    rw [if_neg (by simp [hinvalid])]

/-- Witness for C5 at concrete inputs: reuse of a token expiring 1000
seconds from now, and a fresh issuance from an empty session. -/
theorem C5_token_reuse_witness :
    (ensure_token ⟨⟨some "tok", some 1000⟩, none⟩ 0 "fresh" 3600 =
      ⟨"tok", ⟨⟨some "tok", some 1000⟩, none⟩, 0⟩) ∧
    (ensure_token ⟨⟨none, none⟩, none⟩ 0 "fresh" 3600 =
      ⟨"fresh", save_token_cache ⟨⟨none, none⟩, none⟩ "fresh" 3600, 1⟩) := by
  constructor
  · exact (C5_token_reuse ⟨⟨some "tok", some 1000⟩, none⟩ 0 "fresh" 3600).1
      "tok" 1000 rfl (by decide) rfl (by norm_num [tokenMargin])
  · have h := (C5_token_reuse ⟨⟨none, none⟩, none⟩ 0 "fresh" 3600).2.2
      (by decide)
    simpa using h

/-! ## Auth-forbidden cooldown (`KISBroker._cooldown_on_auth_forbidden`) -/

/-- One invocation of `_cooldown_on_auth_forbidden` at wall time `now`
with configured cooldown `cooldown` and previous trigger timestamp
`lastTs` (`0` when never triggered). Returns `(slept duration, new
_auth_forbidden_last_ts)`: a non-positive cooldown returns immediately;
otherwise the sleep is the full cooldown, reduced by the time already
elapsed since the previous trigger when that elapsed time is shorter
than the cooldown; the timestamp is taken before sleeping. -/
def cooldown_on_auth_forbidden (cooldown lastTs now : ℚ) : ℚ × ℚ :=
  if cooldown ≤ 0 then (0, lastTs)
  else if 0 < lastTs ∧ now - lastTs < cooldown then
    (cooldown - (now - lastTs), now)
  else (cooldown, now)

/-- **C7** Cooldown idempotence: with cooldown `C > 0`, a first 403
trigger at `t1 > 0` (no earlier trigger) sleeps the full `C`; a second
trigger separated by `0 < e < C` sleeps only `C - e` (and a repeat
trigger with zero elapsed time sleeps the full `C`); so the combined
sleep `2C - e` is no shorter than one full cooldown and strictly less
than two full cooldowns stacked. -/
theorem C7_cooldown_idempotence (C t1 e : ℚ) (hC : 0 < C) (ht1 : 0 < t1)
    (he0 : 0 < e) (heC : e < C) :
    (cooldown_on_auth_forbidden C 0 t1).1 = C ∧
    (cooldown_on_auth_forbidden C 0 t1).2 = t1 ∧
    (cooldown_on_auth_forbidden C t1 (t1 + e)).1 = C - e ∧
    (cooldown_on_auth_forbidden C t1 t1).1 = C ∧
    C ≤ (cooldown_on_auth_forbidden C 0 t1).1 +
        (cooldown_on_auth_forbidden C t1 (t1 + e)).1 ∧
    (cooldown_on_auth_forbidden C 0 t1).1 +
        (cooldown_on_auth_forbidden C t1 (t1 + e)).1 < 2 * C := by
  have h1 : cooldown_on_auth_forbidden C 0 t1 = (C, t1) := by
    unfold cooldown_on_auth_forbidden
    rw [if_neg (not_le.mpr hC),
      if_neg (by intro h; exact absurd h.1 (by norm_num))]
  have h2 : cooldown_on_auth_forbidden C t1 (t1 + e) = (C - e, t1 + e) := by
    unfold cooldown_on_auth_forbidden
    rw [if_neg (by linarith), if_pos ⟨ht1, by linarith⟩]
    norm_num
  have h3 : cooldown_on_auth_forbidden C t1 t1 = (C, t1) := by
    unfold cooldown_on_auth_forbidden
    rw [if_neg (by linarith), if_pos ⟨ht1, by linarith⟩]
    norm_num
  rw [h1, h2, h3]
  refine ⟨rfl, rfl, rfl, rfl, by simp; linarith, by simp; linarith⟩

/-- Witness for C7 at a concrete input: cooldown 600, first trigger at
time 100, second trigger 250 seconds later. -/
theorem C7_cooldown_idempotence_witness :
    (cooldown_on_auth_forbidden 600 0 100).1 = 600 ∧
    (cooldown_on_auth_forbidden 600 0 100).2 = 100 ∧
    (cooldown_on_auth_forbidden 600 100 (100 + 250)).1 = 600 - 250 ∧
    (cooldown_on_auth_forbidden 600 100 100).1 = 600 ∧
    (600 : ℚ) ≤ (cooldown_on_auth_forbidden 600 0 100).1 +
        (cooldown_on_auth_forbidden 600 100 (100 + 250)).1 ∧
    (cooldown_on_auth_forbidden 600 0 100).1 +
        (cooldown_on_auth_forbidden 600 100 (100 + 250)).1 < 2 * 600 :=
  C7_cooldown_idempotence 600 100 250 (by norm_num) (by norm_num)
    (by norm_num) (by norm_num)

/-! ## Pool-wide cache clearing (`KISBroker.clear_token_cache`) -/

/-- One session as seen by `clear_token_cache`: its token state and its
single-slot hashkey cache `{key, value, ts}`. -/
structure SessionFull where
  tok : SessionTok
  hashkey : Option (String × String) × ℚ
  deriving Repr, DecidableEq

/-- The broker-owned state touched by `clear_token_cache` and
`reset_sessions`: the session pool, the rotation cursor, and the rate
limiter's shared state file (`none` when absent on disk). -/
structure BrokerWorld where
  sessions : List SessionFull
  currentIdx : ℕ
  rateFile : Option State
  deriving Repr, DecidableEq

/-- The per-session part of `clear_token_cache`: `_token = None`,
`_token_expire = None`, hashkey cache back to
`{"key": None, "value": None, "ts": 0.0}`; the session's on-disk token
cache file is deleted by the glob over `token_cache_path`. -/
def clearSession (_s : SessionFull) : SessionFull :=
  { tok := { mem := ⟨none, none⟩, cacheFile := none }, hashkey := (none, 0) }

/-- `KISBroker.clear_token_cache`: clear every session's in-memory token
and hashkey state, delete the on-disk token cache files, and delete the
rate limiter's state file. -/
def clear_token_cache (w : BrokerWorld) : BrokerWorld :=
  { w with sessions := w.sessions.map clearSession, rateFile := none }

/-- `KISBroker.reset_sessions`: fresh connection handles (not modelled)
and cursor back to `0`. -/
def reset_sessions (w : BrokerWorld) : BrokerWorld :=
  { w with currentIdx := 0 }

/-- The world effect of `_cooldown_on_auth_forbidden` (after its sleep):
`clear_token_cache` then `reset_sessions`. -/
def cooldownWorldEffect (w : BrokerWorld) : BrokerWorld :=
  reset_sessions (clear_token_cache w)

/-- `RateLimiter._load_state` as reached through `FileLock` (which
`open`s with `O_CREAT`): a missing/empty/unreadable state file reads as
a full bucket `{tokens: max_tokens, last_update: now}`. -/
def load_state (L : RateLimiter) (file : Option State) (now : ℚ) : State :=
  match file with
  | none => ⟨L.max_tokens, now⟩
  | some s => s

/-- **C10** Every `clear_token_cache` call (and hence every
auth-forbidden cooldown) deletes the rate limiter's shared state file
besides clearing every session's token and hashkey caches, so the next
acquisition by any process loads — and, after its zero-elapsed refill,
still holds — a full `max_tokens` balance. -/
theorem C10_clear_resets_rate_state (w : BrokerWorld) (L : RateLimiter)
    (now : ℚ) :
    (clear_token_cache w).rateFile = none ∧
    (cooldownWorldEffect w).rateFile = none ∧
    (∀ s ∈ (clear_token_cache w).sessions,
      s.tok.mem.token = none ∧ s.tok.mem.expire = none ∧
      s.tok.cacheFile = none ∧ s.hashkey = (none, 0)) ∧
    load_state L (clear_token_cache w).rateFile now = ⟨L.max_tokens, now⟩ ∧
    refill L (load_state L (clear_token_cache w).rateFile now) now =
      ⟨L.max_tokens, now⟩ := by
  refine ⟨rfl, rfl, ?_, rfl, ?_⟩
  · intro s hs
    simp only [clear_token_cache, List.mem_map] at hs
    obtain ⟨_, _, rfl⟩ := hs
    exact ⟨rfl, rfl, rfl, rfl⟩
  · show refill L ⟨L.max_tokens, now⟩ now = ⟨L.max_tokens, now⟩
    unfold refill
    simp

/-- Witness for C10 at a concrete input: one-session world with a live
rate state file and the default limiter sizing. -/
theorem C10_clear_resets_rate_state_witness :
    (clear_token_cache
        ⟨[⟨⟨⟨some "t", some 9⟩, some ("t", 9)⟩, (some ("b", "h"), 3)⟩], 0,
         some ⟨7, 5⟩⟩).rateFile = none ∧
    load_state ⟨20, 10, 5⟩
        (clear_token_cache
          ⟨[⟨⟨⟨some "t", some 9⟩, some ("t", 9)⟩, (some ("b", "h"), 3)⟩], 0,
           some ⟨7, 5⟩⟩).rateFile 42 = ⟨20, 42⟩ := by
  have h := C10_clear_resets_rate_state
    ⟨[⟨⟨⟨some "t", some 9⟩, some ("t", 9)⟩, (some ("b", "h"), 3)⟩], 0,
     some ⟨7, 5⟩⟩ ⟨20, 10, 5⟩ 42
  exact ⟨h.1, h.2.2.2.1⟩

/-! ## Retryable-status classifier (`src/utils/http_retry.py`) -/

/-- `is_retryable_status`: `None` is not retryable; otherwise membership
in `{429, 500, 502, 503, 504}`. -/
def is_retryable_status : Option ℤ → Bool
  | none => false
  | some st => decide (st = 429 ∨ st = 500 ∨ st = 502 ∨ st = 503 ∨ st = 504)

/-! ## Request orchestrator (`KISBroker.request`) -/

/-- What the HTTP send of one attempt produces: a response with a status
code and a flag for whether a 500 body carries `msg_cd == "EGW00123"`,
or a connection-level `RequestException`. -/
inductive SendResult where
  | response (status : ℤ) (egw00123 : Bool)
  | netError
  deriving Repr, DecidableEq

/-- How one loop iteration of `KISBroker.request` ends. -/
inductive Control where
  /-- `return resp.json()` (or raw text). -/
  | returnSuccess
  /-- `continue`: move to the next iteration re-attempting the call. -/
  | continueLoop
  /-- `raise`: the error propagates to the caller with no further
  attempts. -/
  | raiseFatal
  /-- fall through to `last_exc` bookkeeping, consecutive-error
  counting and backoff: a transient failure counted as a retry. -/
  | fallthroughRetry
  deriving Repr, DecidableEq

/-- The observable effects of one loop iteration of
`KISBroker.request`. -/
structure AttemptEffects where
  /-- `rotate_session()` ran before this attempt (every attempt after
  the first). -/
  rotatedBefore : Bool
  /-- the HTTP call was issued. -/
  httpSent : Bool
  /-- `_cooldown_on_auth_forbidden` ran (before the token re-issuance,
  in source order). -/
  cooldownRun : Bool
  /-- `sess.issue_token()` ran on the attempt's session. -/
  tokenReissued : Bool
  /-- `sess._save_token_cache(...)` persisted the re-issued token. -/
  tokenPersisted : Bool
  /-- `sleep_backoff(...)` ran at the end of the iteration. -/
  backoffSlept : Bool
  /-- `self._consecutive_errors = 0` ran. -/
  consecutiveReset : Bool
  /-- `self._consecutive_errors += 1` ran. -/
  consecutiveIncremented : Bool
  control : Control
  deriving Repr, DecidableEq

/-- One iteration of the `for attempt in range(1, retries + 1)` loop of
`KISBroker.request` (1-based `attempt`), for an iteration whose
`ensure_token` call succeeds. `waitOk` is the Boolean that
`self.rate_limiter.wait(priority=priority)` returns — the source
discards it — and `r` is what the HTTP send produces. Mirrors, in
order: the token-expiry special case (401/403 or 500 with `EGW00123`),
the `is_retryable_status` raise, `resp.raise_for_status()` (which
raises exactly for statuses in `[400, 600)`), the success return, and
the `except` handlers feeding the shared retry tail. -/
def attemptStep (attempt retries : ℕ) (waitOk : Bool) (r : SendResult) :
    AttemptEffects :=
  let rotated := decide (1 < attempt)
  let _ := waitOk
  match r with
  | .netError =>
    { rotatedBefore := rotated, httpSent := true, cooldownRun := false,
      tokenReissued := false, tokenPersisted := false,
      backoffSlept := decide (attempt < retries), consecutiveReset := false,
      consecutiveIncremented := true, control := .fallthroughRetry }
  | .response st egw =>
    if st = 401 ∨ st = 403 ∨ (st = 500 ∧ egw = true) then
      { rotatedBefore := rotated, httpSent := true,
        cooldownRun := decide (st = 403), tokenReissued := true,
        tokenPersisted := true, backoffSlept := false,
        consecutiveReset := false, consecutiveIncremented := false,
        control := .continueLoop }
    else if is_retryable_status (some st) then
      { rotatedBefore := rotated, httpSent := true, cooldownRun := false,
        tokenReissued := false, tokenPersisted := false,
        backoffSlept := decide (attempt < retries), consecutiveReset := false,
        consecutiveIncremented := true, control := .fallthroughRetry }
    else if 400 ≤ st ∧ st < 600 then
      { rotatedBefore := rotated, httpSent := true, cooldownRun := false,
        tokenReissued := false, tokenPersisted := false,
        backoffSlept := false, consecutiveReset := false,
        consecutiveIncremented := false, control := .raiseFatal }
    else
      { rotatedBefore := rotated, httpSent := true, cooldownRun := false,
        tokenReissued := false, tokenPersisted := false,
        backoffSlept := false, consecutiveReset := true,
        consecutiveIncremented := false, control := .returnSuccess }

/-- **C2 counterexample**: on an attempt whose rate-limiter acquisition
times out (`wait` returns `False`), `KISBroker.request` does not treat
the attempt as a transient failure: it proceeds to send the HTTP call
(here answered 200 and returned as success, with no retry counted). -/
theorem C2_rate_gate_counterexample :
    (attemptStep 1 8 false (.response 200 false)).httpSent = true ∧
    (attemptStep 1 8 false (.response 200 false)).consecutiveIncremented
      = false ∧
    (attemptStep 1 8 false (.response 200 false)).control
      = Control.returnSuccess := by
  decide

/-- **C2 (amended)**: `KISBroker.request` discards the Boolean returned
by `self.rate_limiter.wait(...)`: the iteration's behaviour is
identical whether the acquisition succeeded or timed out, and the HTTP
call is sent either way; a rate-gate timeout is never counted toward
the retry budget. -/
theorem C2_rate_gate_amended (attempt retries : ℕ) (waitOk : Bool)
    (r : SendResult) :
    attemptStep attempt retries waitOk r =
      attemptStep attempt retries true r ∧
    (attemptStep attempt retries waitOk r).httpSent = true := by
  refine ⟨rfl, ?_⟩
  cases r with
  | netError => rfl
  | response st egw =>
    simp only [attemptStep]
    split
    · rfl
    · split
      · rfl
      · split <;> rfl

/-- **C4** Token-expiry classification: a response with status 401 or
403, or 500 whose body carries `msg_cd == "EGW00123"`, makes the
iteration re-issue and persist the token for the attempt's session and
`continue` the loop — no backoff sleep, no consecutive-error increment,
no extra retry slot beyond the current attempt — with the
auth-forbidden cooldown run (first, in source order) exactly when the
status is 403. -/
theorem C4_token_expiry (attempt retries : ℕ) (waitOk : Bool) (st : ℤ)
    (egw : Bool) (h : st = 401 ∨ st = 403 ∨ (st = 500 ∧ egw = true)) :
    (attemptStep attempt retries waitOk (.response st egw)).tokenReissued
      = true ∧
    (attemptStep attempt retries waitOk (.response st egw)).tokenPersisted
      = true ∧
    (attemptStep attempt retries waitOk (.response st egw)).control
      = Control.continueLoop ∧
    (attemptStep attempt retries waitOk (.response st egw)).backoffSlept
      = false ∧
    (attemptStep attempt retries waitOk
        (.response st egw)).consecutiveIncremented = false ∧
    (attemptStep attempt retries waitOk (.response st egw)).consecutiveReset
      = false ∧
    ((attemptStep attempt retries waitOk (.response st egw)).cooldownRun
      = true ↔ st = 403) := by
  have hstep : attemptStep attempt retries waitOk (.response st egw) =
      { rotatedBefore := decide (1 < attempt), httpSent := true,
        cooldownRun := decide (st = 403), tokenReissued := true,
        tokenPersisted := true, backoffSlept := false,
        consecutiveReset := false, consecutiveIncremented := false,
        control := .continueLoop } := by
    simp only [attemptStep, if_pos h]
  rw [hstep]
  refine ⟨rfl, rfl, rfl, rfl, rfl, rfl, ?_⟩
  simp

/-- Witness for C4 at a concrete input: a 403 response on attempt 1 of
8. -/
theorem C4_token_expiry_witness :
    (attemptStep 1 8 true (.response 403 false)).tokenReissued = true ∧
    (attemptStep 1 8 true (.response 403 false)).tokenPersisted = true ∧
    (attemptStep 1 8 true (.response 403 false)).control
      = Control.continueLoop ∧
    (attemptStep 1 8 true (.response 403 false)).backoffSlept = false ∧
    (attemptStep 1 8 true (.response 403 false)).consecutiveIncremented
      = false ∧
    (attemptStep 1 8 true (.response 403 false)).consecutiveReset = false ∧
    ((attemptStep 1 8 true (.response 403 false)).cooldownRun = true ↔
      (403 : ℤ) = 403) :=
  C4_token_expiry 1 8 true 403 false (by decide)

/-- **C8 counterexample**: a 304 response — non-2xx, outside the
401/403/token-expiry handling and outside the retryable set — is
returned as a success by `KISBroker.request` (`raise_for_status` only
raises for statuses in `[400, 600)`), not raised as a fatal error. -/
theorem C8_classification_counterexample :
    (attemptStep 1 8 true (.response 304 false)).control
      = Control.returnSuccess ∧
    (attemptStep 1 8 true (.response 304 false)).control
      ≠ Control.raiseFatal := by
  decide

/-- **C8 (amended)** Response classification: outside the
401/403/token-expiry handling, a status in `{429, 500, 502, 503, 504}`
is a transient failure counted as a retry; any other status in
`[400, 600)` raises fatally — immediately, with no backoff and no
consecutive-error increment; a status outside `[400, 600)` (including
every non-2xx 1xx/3xx status) is returned as a success. And
`is_retryable_status` is true exactly on the five-element set, false on
`None` and every other status. -/
theorem C8_classification_amended (attempt retries : ℕ) (waitOk : Bool)
    (st : ℤ) (egw : Bool)
    (hte : ¬(st = 401 ∨ st = 403 ∨ (st = 500 ∧ egw = true))) :
    (is_retryable_status none = false ∧
     ∀ v : ℤ, is_retryable_status (some v) = true ↔
       (v = 429 ∨ v = 500 ∨ v = 502 ∨ v = 503 ∨ v = 504)) ∧
    ((attemptStep attempt retries waitOk (.response st egw)).control
        = Control.fallthroughRetry ↔
      (st = 429 ∨ st = 500 ∨ st = 502 ∨ st = 503 ∨ st = 504)) ∧
    ((attemptStep attempt retries waitOk (.response st egw)).control
        = Control.raiseFatal ↔
      (400 ≤ st ∧ st < 600 ∧
       ¬(st = 429 ∨ st = 500 ∨ st = 502 ∨ st = 503 ∨ st = 504))) ∧
    ((attemptStep attempt retries waitOk (.response st egw)).control
        = Control.returnSuccess ↔
      (¬(400 ≤ st ∧ st < 600) ∧
       ¬(st = 429 ∨ st = 500 ∨ st = 502 ∨ st = 503 ∨ st = 504))) ∧
    ((attemptStep attempt retries waitOk (.response st egw)).control
        = Control.raiseFatal →
      (attemptStep attempt retries waitOk (.response st egw)).backoffSlept
          = false ∧
      (attemptStep attempt retries waitOk
          (.response st egw)).consecutiveIncremented = false) := by
  refine ⟨⟨rfl, fun v => by simp [is_retryable_status]⟩, ?_⟩
  by_cases hr : st = 429 ∨ st = 500 ∨ st = 502 ∨ st = 503 ∨ st = 504
  · have hstep : attemptStep attempt retries waitOk (.response st egw) =
        { rotatedBefore := decide (1 < attempt), httpSent := true,
          cooldownRun := false, tokenReissued := false,
          tokenPersisted := false, backoffSlept := decide (attempt < retries),
          consecutiveReset := false, consecutiveIncremented := true,
          control := .fallthroughRetry } := by
      simp only [attemptStep, if_neg hte,
        if_pos (show is_retryable_status (some st) = true by
          simp [is_retryable_status, hr])]
    rw [hstep]
    simp [hr]
  · by_cases hrange : 400 ≤ st ∧ st < 600
    · have hstep : attemptStep attempt retries waitOk (.response st egw) =
          { rotatedBefore := decide (1 < attempt), httpSent := true,
            cooldownRun := false, tokenReissued := false,
            tokenPersisted := false, backoffSlept := false,
            consecutiveReset := false, consecutiveIncremented := false,
            control := .raiseFatal } := by
        simp only [attemptStep, if_neg hte,
          if_neg (show ¬ is_retryable_status (some st) = true by
            simp [is_retryable_status, hr]),
          if_pos hrange]
      rw [hstep]
      simp [hr, hrange]
    · have hstep : attemptStep attempt retries waitOk (.response st egw) =
          { rotatedBefore := decide (1 < attempt), httpSent := true,
            cooldownRun := false, tokenReissued := false,
            tokenPersisted := false, backoffSlept := false,
            consecutiveReset := true, consecutiveIncremented := false,
            control := .returnSuccess } := by
        simp only [attemptStep, if_neg hte,
          if_neg (show ¬ is_retryable_status (some st) = true by
            simp [is_retryable_status, hr]),
          if_neg hrange]
      rw [hstep]
      simp [hr, hrange]

/-- Witness for the amended C8 at a concrete input: a 502 response. -/
theorem C8_classification_amended_witness :
    (is_retryable_status none = false ∧
     ∀ v : ℤ, is_retryable_status (some v) = true ↔
       (v = 429 ∨ v = 500 ∨ v = 502 ∨ v = 503 ∨ v = 504)) ∧
    ((attemptStep 1 8 true (.response 502 false)).control
        = Control.fallthroughRetry ↔
      ((502 : ℤ) = 429 ∨ (502 : ℤ) = 500 ∨ (502 : ℤ) = 502 ∨
       (502 : ℤ) = 503 ∨ (502 : ℤ) = 504)) ∧
    ((attemptStep 1 8 true (.response 502 false)).control
        = Control.raiseFatal ↔
      ((400 : ℤ) ≤ 502 ∧ (502 : ℤ) < 600 ∧
       ¬((502 : ℤ) = 429 ∨ (502 : ℤ) = 500 ∨ (502 : ℤ) = 502 ∨
         (502 : ℤ) = 503 ∨ (502 : ℤ) = 504))) ∧
    ((attemptStep 1 8 true (.response 502 false)).control
        = Control.returnSuccess ↔
      (¬((400 : ℤ) ≤ 502 ∧ (502 : ℤ) < 600) ∧
       ¬((502 : ℤ) = 429 ∨ (502 : ℤ) = 500 ∨ (502 : ℤ) = 502 ∨
         (502 : ℤ) = 503 ∨ (502 : ℤ) = 504))) ∧
    ((attemptStep 1 8 true (.response 502 false)).control
        = Control.raiseFatal →
      (attemptStep 1 8 true (.response 502 false)).backoffSlept = false ∧
      (attemptStep 1 8 true (.response 502 false)).consecutiveIncremented
        = false) :=
  C8_classification_amended 1 8 true 502 false (by decide)

/-! ## Session rotation (`KISBroker.rotate_session`, `KISBroker.request`) -/

/-- `KISBroker.rotate_session`: advance the cursor to
`(idx + 1) % len(sessions)` over a pool of `n` sessions. -/
def rotate_session (n idx : ℕ) : ℕ := (idx + 1) % n

/-- The session index used by (1-based) attempt `i` of one `request`
call starting with cursor `start` over `n` sessions: attempt 1 uses the
current session; every later attempt runs `rotate_session` first (the
`if attempt > 1` at the top of the loop body). -/
def sessionUsed (n start : ℕ) : ℕ → ℕ
  | 0 => start
  | 1 => start
  | i + 2 => rotate_session n (sessionUsed n start (i + 1))

theorem sessionUsed_closed (n start : ℕ) (hs : start < n) :
    ∀ k : ℕ, sessionUsed n start (k + 1) = (start + k) % n := by
  intro k
  induction k with
  | zero =>
    show start = (start + 0) % n
    rw [Nat.add_zero, Nat.mod_eq_of_lt hs]
  | succ j ih =>
    show rotate_session n (sessionUsed n start (j + 1)) = (start + (j + 1)) % n
    rw [ih]
    unfold rotate_session
    exact Nat.ModEq.add_right 1 (Nat.mod_modEq (start + j) n)

/-- **C6** Rotation: over a pool of `n` sessions with the cursor at
`start < n`, attempt 1 uses the current session, every later attempt
advances the cursor by one modulo `n` before selecting, and the
sessions used by attempts `1..k` are exactly
`(start, start + 1, ..., start + k - 1) mod n`. -/
theorem C6_rotation (n start k : ℕ) (hs : start < n) :
    sessionUsed n start 1 = start ∧
    (∀ i, 1 ≤ i →
      sessionUsed n start (i + 1) = rotate_session n (sessionUsed n start i)) ∧
    (∀ i, 1 ≤ i → i ≤ k → sessionUsed n start i = (start + (i - 1)) % n) := by
  refine ⟨rfl, ?_, ?_⟩
  · intro i hi
    match i, hi with
    | j + 1, _ => rfl
  · intro i hi _
    match i, hi with
    | j + 1, _ =>
      simp only [Nat.add_sub_cancel]
      exact sessionUsed_closed n start hs j

/-- Witness for C6 at a concrete input: pool of 3 sessions, cursor 1,
5 attempts. -/
theorem C6_rotation_witness :
    sessionUsed 3 1 1 = 1 ∧
    (∀ i, 1 ≤ i →
      sessionUsed 3 1 (i + 1) = rotate_session 3 (sessionUsed 3 1 i)) ∧
    (∀ i, 1 ≤ i → i ≤ 5 → sessionUsed 3 1 i = (1 + (i - 1)) % 3) :=
  C6_rotation 3 1 5 (by decide)

/-! ## Session pool construction (`KISBroker.__init__`) -/

/-- A KIS credential set as loaded by `load_kis_keys()` or derived from
base settings. -/
structure Credential where
  app_key : String
  app_secret : String
  account_no : Option String
  account_product : String
  deriving Repr, DecidableEq

/-- The key-configuration selection of `KISBroker.__init__` (lines
176-186): an empty `load_kis_keys()` result with both the KIS toggle
file and personal records present raises `RuntimeError`; an empty
result otherwise falls back to the single settings-derived credential;
a non-empty result is used as-is. -/
def selectKeyConfigs (loaded : List Credential) (hasToggle hasRecords : Bool)
    (fallback : Credential) : Except String (List Credential) :=
  if loaded.isEmpty then
    if hasToggle && hasRecords then
      Except.error "No enabled KIS keys. Enable at least one in the dashboard."
    else Except.ok [fallback]
  else Except.ok loaded

/-- **C9 counterexample**: with no enabled credentials but with the KIS
toggle file and personal records present, `KISBroker.__init__` raises
`RuntimeError` instead of falling back to the settings-derived
credential — the claimed unconditional fallback does not happen. -/
theorem C9_pool_counterexample :
    selectKeyConfigs [] true true ⟨"base_key", "base_secret", none, "01"⟩ =
      Except.error
        "No enabled KIS keys. Enable at least one in the dashboard." := rfl

/-- **C9 (amended)** Session pool non-emptiness: every construction
that succeeds yields a non-empty session list — the empty-store
fallback to the single settings-derived credential happens exactly when
the toggle file or the personal records are absent, while with both
present an empty store makes construction raise instead — and the
cursor starts at `0` and stays a valid index under
`rotate_session`. -/
theorem C9_pool_nonempty (loaded : List Credential) (ht hr : Bool)
    (fb : Credential) (l : List Credential)
    (hok : selectKeyConfigs loaded ht hr fb = Except.ok l) :
    l ≠ [] ∧ 0 < l.length ∧
    (loaded = [] → (ht && hr) = false → l = [fb]) ∧
    (∀ idx, rotate_session l.length idx < l.length) := by
  have hne : l ≠ [] ∧ (loaded = [] → (ht && hr) = false → l = [fb]) := by
    unfold selectKeyConfigs at hok
    by_cases hl : loaded.isEmpty
    · rw [if_pos hl] at hok
      by_cases htr : (ht && hr) = true
      · rw [if_pos htr] at hok
        exact absurd hok (by simp)
      · rw [if_neg htr] at hok
        have : l = [fb] := by
          simpa using hok.symm
        exact ⟨by simp [this], fun _ _ => this⟩
    · rw [if_neg hl] at hok
      have : l = loaded := by simpa using hok.symm
      constructor
      · rw [this]
        simpa [List.isEmpty_iff] using hl
      · intro h0
        exact absurd (by simp [h0] : loaded.isEmpty = true) hl
  have hlen : 0 < l.length := List.length_pos.mpr hne.1
  exact ⟨hne.1, hlen, hne.2, fun idx => Nat.mod_lt _ hlen⟩

/-- Witness for the amended C9 at a concrete input: two loaded
credentials. -/
theorem C9_pool_nonempty_witness :
    ([⟨"k1", "s1", none, "01"⟩, ⟨"k2", "s2", none, "01"⟩] :
        List Credential) ≠ [] ∧
    0 < ([⟨"k1", "s1", none, "01"⟩, ⟨"k2", "s2", none, "01"⟩] :
        List Credential).length ∧
    (([⟨"k1", "s1", none, "01"⟩, ⟨"k2", "s2", none, "01"⟩] :
        List Credential) = [] → (true && true) = false →
      ([⟨"k1", "s1", none, "01"⟩, ⟨"k2", "s2", none, "01"⟩] :
        List Credential) = [⟨"fb", "fs", none, "01"⟩]) ∧
    (∀ idx, rotate_session
        ([⟨"k1", "s1", none, "01"⟩, ⟨"k2", "s2", none, "01"⟩] :
          List Credential).length idx <
      ([⟨"k1", "s1", none, "01"⟩, ⟨"k2", "s2", none, "01"⟩] :
        List Credential).length) :=
  C9_pool_nonempty [⟨"k1", "s1", none, "01"⟩, ⟨"k2", "s2", none, "01"⟩]
    true true ⟨"fb", "fs", none, "01"⟩ _ rfl

end TraderUS
